import Mathlib

/-!
Verification of the PPL2System transactional core against its specification.

The Go sources are shallowly embedded: monetary strings (parsed with
`strconv.ParseFloat` / `shopspring/decimal` and re-formatted at two fixed
decimals) are modelled as exact rationals `ℚ`, machine integers (`int32`,
`int64` quantities and ids) as `ℤ` (the claims under study involve no
overflow behaviour), fallible handlers as `Except`/`Option` values, and the
per-request database transaction as explicit state passing where an error
result means the transaction was rolled back (state unchanged).
-/

/-- Fixed two-decimal formatting (Go `strconv.FormatFloat(x, 'f', 2, 64)` and
the re-parse of the stored string): round to the nearest multiple of 1/100. -/
def round2 (q : ℚ) : ℚ := (round (q * 100) : ℤ) / 100

/-- A rational that is representable with two fractional decimal digits,
i.e. an exact amount as stored in the two-decimal wire strings. -/
def isCents (q : ℚ) : Prop := ∃ n : ℤ, q = (n : ℚ) / 100

/-- Rounding half away from zero, as `shopspring/decimal` uses for
`StringFixed`. -/
def roundAway (x : ℚ) : ℤ := if 0 ≤ x then ⌊x + 1/2⌋ else ⌈x - 1/2⌉

/-- The integer number of cents printed by `decimal.StringFixed(2)`. -/
def stringFixed2 (q : ℚ) : ℤ := roundAway (q * 100)

/- ## Stock Ledger (internal/services/inventory/handler/inventory.go) -/

/-- Movement type enumeration from the inventory proto
(`MOVEMENT_TYPE_IN/OUT/TRANSFER/ADJUSTMENT`). -/
inductive MovementType where
  | movIn
  | movOut
  | movTransfer
  | movAdjustment
deriving DecidableEq, Repr

/-- The mutable part of a `Stock` row relevant to the stock claims:
`AvailableQuantity` and `ReservedQuantity` (`int32` in the Go model). -/
structure Stock where
  availableQuantity : ℤ
  reservedQuantity : ℤ
deriving DecidableEq, Repr

/-- A `StockMovement` row as appended by the mutating handlers; only the
fields the claims mention are kept (`MovementType`, signed `Quantity`). -/
structure StockMovement where
  movementType : MovementType
  quantity : ℤ
deriving DecidableEq, Repr

/-- Error outcomes of the stock handlers; `insufficientStock`,
`insufficientReserved` and `negAdjustment` are the `precondition_failed`
rollback paths, `invalidArg` the pre-transaction validation failures. -/
inductive StockErr where
  | invalidArg
  | insufficientStock
  | insufficientReserved
  | negAdjustment
  | invalidMovementType
deriving DecidableEq, Repr

/-- `ReserveStock` (inventory.go:609-702) restricted to the (product,
warehouse) row the request selects: validates `quantity > 0`, requires
`AvailableQuantity ≥ quantity`, moves the quantity from available to
reserved and appends one ADJUSTMENT movement whose `Quantity` is the
(positive) requested quantity. An error means the transaction rolled back. -/
def reserveStock (s : Stock) (q : ℤ) : Except StockErr (Stock × StockMovement) :=
  if q ≤ 0 then .error .invalidArg
  else if s.availableQuantity < q then .error .insufficientStock
  else .ok ({ availableQuantity := s.availableQuantity - q,
              reservedQuantity := s.reservedQuantity + q },
            { movementType := .movAdjustment, quantity := q })

/-- `ReleaseStock` (inventory.go:704-797): validates `quantity > 0`, requires
`ReservedQuantity ≥ quantity`, moves the quantity back from reserved to
available and appends one ADJUSTMENT movement with the positive quantity. -/
def releaseStock (s : Stock) (q : ℤ) : Except StockErr (Stock × StockMovement) :=
  if q ≤ 0 then .error .invalidArg
  else if s.reservedQuantity < q then .error .insufficientReserved
  else .ok ({ availableQuantity := s.availableQuantity + q,
              reservedQuantity := s.reservedQuantity - q },
            { movementType := .movAdjustment, quantity := q })

/-- `UpdateStock` (inventory.go:799-934) on an existing row: validates
`quantity > 0`, then switches on the movement type — IN adds to available,
OUT requires `AvailableQuantity ≥ quantity` and subtracts, ADJUSTMENT adds
and rejects a negative post-image (unreachable since `quantity > 0`), any
other type is rejected. One movement row with the request's movement type
and positive quantity is appended. -/
def updateStock (s : Stock) (mt : MovementType) (q : ℤ) :
    Except StockErr (Stock × StockMovement) :=
  if q ≤ 0 then .error .invalidArg
  else
    match mt with
    | .movIn =>
        .ok ({ s with availableQuantity := s.availableQuantity + q },
             { movementType := .movIn, quantity := q })
    | .movOut =>
        if s.availableQuantity < q then .error .insufficientStock
        else .ok ({ s with availableQuantity := s.availableQuantity - q },
                  { movementType := .movOut, quantity := q })
    | .movAdjustment =>
        if s.availableQuantity + q < 0 then .error .negAdjustment
        else .ok ({ s with availableQuantity := s.availableQuantity + q },
                  { movementType := .movAdjustment, quantity := q })
    | .movTransfer => .error .invalidMovementType

/-- One mutating call against a single stock row. -/
inductive StockOp where
  | reserve (q : ℤ)
  | release (q : ℤ)
  | update (mt : MovementType) (q : ℤ)
deriving DecidableEq, Repr

/-- Dispatch one call to the corresponding handler. -/
def applyStockOp (s : Stock) : StockOp → Except StockErr (Stock × StockMovement)
  | .reserve q => reserveStock s q
  | .release q => releaseStock s q
  | .update mt q => updateStock s mt q

/-- Run a sequence of calls, requiring every call to succeed, and collect
the appended movement journal in order. -/
def runStockOps (s : Stock) : List StockOp → Except StockErr (Stock × List StockMovement)
  | [] => .ok (s, [])
  | op :: rest =>
      match applyStockOp s op with
      | .error e => .error e
      | .ok (s1, m) =>
          match runStockOps s1 rest with
          | .error e => .error e
          | .ok (s2, ms) => .ok (s2, m :: ms)

/-- The live balance of a stock row: `available_qty + reserved_qty`. -/
def Stock.balance (s : Stock) : ℤ := s.availableQuantity + s.reservedQuantity

/-- The sum of the stored `StockMovement.Quantity` fields, which is what the
claim calls the sum of signed quantities (the code stores the raw request
quantity). -/
def movementQuantitySum (ms : List StockMovement) : ℤ :=
  (ms.map (fun m => m.quantity)).sum

/-- A movement's quantity signed by its movement type: OUT counted
negatively, IN and ADJUSTMENT positively. -/
def typeSignedQuantity (m : StockMovement) : ℤ :=
  match m.movementType with
  | .movOut => -m.quantity
  | _ => m.quantity

/-- Whether a call is an `UpdateStock` call. -/
def StockOp.isUpdate : StockOp → Bool
  | .update _ _ => true
  | _ => false

/- ## Order Engine (internal/services/pos/handler/pos.go) -/

/-- Document type enumeration (`DOCUMENT_TYPE_SALE/VOID/RETURN`). -/
inductive DocumentType where
  | sale
  | voidDoc
  | returnDoc
  | unspecified
deriving DecidableEq, Repr

/-- Paid status enumeration (`PAID_STATUS_PENDING/PAID/REFUNDED`); the spec
identifies the numeric value 1 compared against in `ProcessPayment` with
PAID. -/
inductive PaidStatus where
  | pending
  | paid
  | refunded
deriving DecidableEq, Repr

/-- Discount type enumeration: the Go switches use 1 = PERCENTAGE,
2 = FIXED_AMOUNT, 3 = BUY_X_GET_Y; `unspecified` stands for any other tag
(the `default` branch). -/
inductive DiscountType where
  | percentage
  | fixedAmount
  | buyXGetY
  | unspecified
deriving DecidableEq, Repr

/-- An `OrderItem` row (pos.go:104-120), monetary strings as rationals. -/
structure OrderItemRec where
  id : ℤ
  documentId : ℤ
  productId : ℤ
  servingEmployeeId : Option ℤ
  quantity : ℤ
  unitPrice : ℚ
  priceBeforeDiscount : ℚ
  discountId : Option ℤ
  discountAmount : ℚ
  lineTotal : ℚ
  commissionAmount : ℚ
deriving DecidableEq, Repr

/-- An `OrderDocument` row (pos.go:78-102) with its loaded items. -/
structure OrderDocument where
  id : ℤ
  documentNumber : String
  cashierId : ℤ
  documentType : DocumentType
  paymentTypeId : Option ℤ
  subtotal : ℚ
  taxAmount : ℚ
  discountAmount : ℚ
  totalAmount : ℚ
  paidAmount : ℚ
  changeAmount : ℚ
  paidStatus : PaidStatus
  additionalInfo : Option String
  notes : Option String
  createdAt : ℤ
  updatedAt : ℤ
  orderItems : List OrderItemRec
deriving DecidableEq, Repr

/-- One broker publish: the channel written to and the event type. -/
structure PubEvent where
  channel : String
  eventType : String
deriving DecidableEq, Repr

/-- `publishOrderEvent` (pos.go:2346-2361): one publish on
`pos:events:<type>` and one on `pos:events:all`. -/
def publishOrderEvent (eventType : String) : List PubEvent :=
  [{ channel := "pos:events:" ++ eventType, eventType := eventType },
   { channel := "pos:events:all", eventType := eventType }]

/-- Result of `ProcessPayment`: the stored order after the handler returns
(unchanged when it fails), the response `change_amount`, and every event
published during the call. -/
structure PaymentOutcome where
  order : OrderDocument
  success : Bool
  changeAmount : ℚ
  events : List PubEvent
deriving DecidableEq, Repr

/-- `ProcessPayment` (pos.go:659-735) on the loaded order: rejects an
already-PAID order; for `payment_type_id == 1` requires
`paid_amount ≥ total_amount` and computes `change_amount` as the formatted
difference; on success sets `paid_status = PAID` and the payment type and
saves. The handler body contains no `publishOrderEvent` call, so the list
of published events is empty on every path. -/
def processPayment (o : OrderDocument) (paymentTypeId : ℤ) (paidAmount : ℚ) :
    PaymentOutcome :=
  if o.paidStatus = .paid then
    { order := o, success := false, changeAmount := 0, events := [] }
  else if paymentTypeId = 1 then
    if paidAmount < o.totalAmount then
      { order := o, success := false, changeAmount := 0, events := [] }
    else
      { order := { o with paidStatus := .paid, paymentTypeId := some paymentTypeId },
        success := true,
        changeAmount := round2 (paidAmount - o.totalAmount),
        events := [] }
  else
    { order := { o with paidStatus := .paid, paymentTypeId := some paymentTypeId },
      success := true, changeAmount := 0, events := [] }

/-- Truncation toward zero, as Go's `int(x)` conversion from `float64`. -/
def ratTrunc (x : ℚ) : ℤ := if 0 ≤ x then ⌊x⌋ else ⌈x⌉

/-- The free-item count of the BUY_X_GET_Y branches:
`int(quantity/min_quantity) * int(discount_value)`. -/
def freeItems (q minq : ℤ) (v : ℚ) : ℤ :=
  ratTrunc ((q : ℚ) / (minq : ℚ)) * ratTrunc v

/-- The per-item discount switch inside `CreateOrder` (pos.go:1625-1636):
no cap is applied to the computed amount. -/
def createOrderDiscountAmount (dtype : DiscountType) (v : ℚ) (minq : ℤ)
    (up : ℚ) (q : ℤ) : ℚ :=
  match dtype with
  | .percentage => (up * q) * (v / 100)
  | .fixedAmount => v * q
  | .buyXGetY => if minq ≤ q then up * (freeItems q minq v : ℚ) else 0
  | .unspecified => 0

/-- `calculateDiscountAmount` (pos.go:1455-1473), used by `ApplyDiscount` on
cart items: PERCENTAGE and FIXED_AMOUNT as in `CreateOrder`, BUY_X_GET_Y
computes 0, and again no cap is applied. -/
def calculateDiscountAmount (dtype : DiscountType) (v : ℚ) (up : ℚ) (q : ℤ) : ℚ :=
  match dtype with
  | .percentage => (up * q) * (v / 100)
  | .fixedAmount => v * q
  | .buyXGetY => 0
  | .unspecified => 0

/-- The discount computation of `ValidateDiscount` (pos.go:966-1001): the
same switch, followed by the cap `if discountAmount > totalPrice then
totalPrice`. -/
def validateDiscountAmount (dtype : DiscountType) (v : ℚ) (minq : ℤ)
    (up : ℚ) (q : ℤ) : ℚ :=
  let raw : ℚ :=
    match dtype with
    | .percentage => (up * q) * (v / 100)
    | .fixedAmount => v * q
    | .buyXGetY => if minq ≤ q then up * (freeItems q minq v : ℚ) else 0
    | .unspecified => 0
  let totalPrice := up * q
  if totalPrice < raw then totalPrice else raw

/-- The two monetary fields of a stored `CartItem` that
`recalculateCartTotals` reads back. -/
structure CartLine where
  lineTotal : ℚ
  discountAmount : ℚ
deriving DecidableEq, Repr

/-- The four monetary header fields written by the totals computations. -/
structure CartTotals where
  subtotal : ℚ
  discountAmount : ℚ
  taxAmount : ℚ
  totalAmount : ℚ
deriving DecidableEq, Repr

/-- `recalculateCartTotals` (pos.go:1475-1501): accumulates
`subtotal = Σ (line_total + discount_amount)` and
`discount = Σ discount_amount` over the cart's items, computes
`tax = (subtotal − discount) × 0.10` and
`total = subtotal − discount + tax`, and stores each value formatted at two
decimals. -/
def recalculateCartTotals (items : List CartLine) : CartTotals :=
  let subtotal := (items.map (fun i => i.lineTotal + i.discountAmount)).sum
  let totalDiscount := (items.map (fun i => i.discountAmount)).sum
  let taxAmount := (subtotal - totalDiscount) * (1/10)
  let totalAmount := subtotal - totalDiscount + taxAmount
  { subtotal := round2 subtotal, discountAmount := round2 totalDiscount,
    taxAmount := round2 taxAmount, totalAmount := round2 totalAmount }

/-- The per-line monetary amounts `CreateOrder` accumulates:
`line_subtotal = unit_price × quantity` and the computed discount. -/
structure OrderLineAmounts where
  lineSubtotal : ℚ
  discountAmount : ℚ
deriving DecidableEq, Repr

/-- The stored `line_total` of a created order item (pos.go:1641,1659):
`line_subtotal − discount_amount`, formatted at two decimals. -/
def createOrderStoredLineTotal (l : OrderLineAmounts) : ℚ :=
  round2 (l.lineSubtotal - l.discountAmount)

/-- The order-header totals of `CreateOrder` (pos.go:1672-1683):
`subtotal = Σ line_subtotal`, `discount = Σ discount_amount`,
`tax = (subtotal − discount) × 0.10`, `total = subtotal − discount + tax`,
each stored formatted at two decimals. -/
def createOrderTotals (lines : List OrderLineAmounts) : CartTotals :=
  let subtotal := (lines.map (fun l => l.lineSubtotal)).sum
  let totalDiscount := (lines.map (fun l => l.discountAmount)).sum
  let totalTax := (subtotal - totalDiscount) * (1/10)
  let totalAmount := subtotal - totalDiscount + totalTax
  { subtotal := round2 subtotal, discountAmount := round2 totalDiscount,
    taxAmount := round2 totalTax, totalAmount := round2 totalAmount }

/-- Error outcomes of `VoidOrder`. -/
inductive VoidErr where
  | invalidArg
  | notFound
  | alreadyVoided
  | paidOrderRejected
deriving DecidableEq, Repr

/-- The column map `VoidOrder` applies to the matched row (pos.go:2086-2090):
`document_type = VOID`, `notes = reason`, `updated_at = now`. -/
def voidOrderUpdates (reason : String) (now : ℤ) (o : OrderDocument) : OrderDocument :=
  { o with documentType := .voidDoc, notes := some reason, updatedAt := now }

/-- `VoidOrder` (pos.go:2026-2135) over the orders table: request
validations, row lookup, the already-VOID and PAID guards, then a single
`UPDATE ... WHERE id = ?` with the three-column map, followed by the
`order.voided` publication. -/
def voidOrder (db : List OrderDocument) (orderId voidedBy : ℤ) (reason : String)
    (now : ℤ) : Except VoidErr (List OrderDocument × List PubEvent) :=
  if orderId = 0 then .error .invalidArg
  else if voidedBy = 0 then .error .invalidArg
  else if reason = "" then .error .invalidArg
  else
    match db.find? (fun o => o.id = orderId) with
    | none => .error .notFound
    | some o =>
        if o.documentType = .voidDoc then .error .alreadyVoided
        else if o.paidStatus = .paid then .error .paidOrderRejected
        else
          .ok (db.map (fun x => if x.id = orderId then voidOrderUpdates reason now x else x),
               publishOrderEvent "order.voided")

/- ## Commission Engine (internal/services/commissions/handler/commissions.go) -/

/-- Commission status enumeration
(`COMMISSION_STATUS_DRAFT/CALCULATED/APPROVED/PAID`). -/
inductive CommissionStatus where
  | unspecified
  | draft
  | calculated
  | approved
  | paid
deriving DecidableEq, Repr

/-- A `CommissionCalculation` row (commissions.go:73-93); monetary strings
as rationals. -/
structure CommissionCalc where
  id : ℤ
  employeeId : ℤ
  totalSales : ℚ
  baseCommission : ℚ
  bonusCommission : ℚ
  totalCommission : ℚ
  status : CommissionStatus
  calculatedBy : ℤ
  approvedBy : Option ℤ
  notes : Option String
deriving DecidableEq, Repr

/-- A `CommissionPayment` row (commissions.go:109-121). -/
structure CommissionPaymentRec where
  calculationId : ℤ
  employeeId : ℤ
  paymentAmount : ℚ
  paymentDate : String
  paymentTypeId : ℤ
  referenceNumber : Option String
  paidBy : ℤ
  notes : Option String
deriving DecidableEq, Repr

/-- gRPC status codes returned by the commission handlers. -/
inductive GrpcCode where
  | invalidArgument
  | notFound
  | failedPrecondition
  | internal
deriving DecidableEq, Repr

/-- The value stored for a `decimal.StringFixed(2)` field when it is read
back: the amount rounded half away from zero at two decimals. -/
def decimal2 (q : ℚ) : ℚ := (stringFixed2 q : ℚ) / 100

/-- `ApproveCommission` (commissions.go:689-738) on the locked row: the
request validations precede; requires status CALCULATED, sets APPROVED and
`approved_by`, and overwrites notes when approval notes are non-empty. An
error rolls the transaction back. -/
def approveCommission (c : CommissionCalc) (approvedBy : ℤ) (approvalNotes : String) :
    Except GrpcCode CommissionCalc :=
  if approvedBy ≤ 0 then .error .invalidArgument
  else if c.status ≠ .calculated then .error .failedPrecondition
  else .ok { c with
             status := .approved
             approvedBy := some approvedBy
             notes := if approvalNotes ≠ "" then some approvalNotes else c.notes }

/-- The timestamped rejection tag `RejectCommission` appends
(commissions.go:773-777). -/
def rejectionTag (rejectedBy : ℤ) (timestamp reason : String) : String :=
  "\n[REJECTED by User ID " ++ toString rejectedBy ++ " on " ++ timestamp ++ "]: " ++ reason

/-- `RejectCommission` (commissions.go:740-806) on the locked row: requires
status CALCULATED, sets DRAFT, clears `approved_by`, and appends the
timestamped rejection tag to the existing notes. -/
def rejectCommission (c : CommissionCalc) (rejectedBy : ℤ) (reason timestamp : String) :
    Except GrpcCode CommissionCalc :=
  if rejectedBy ≤ 0 then .error .invalidArgument
  else if reason = "" then .error .invalidArgument
  else if c.status ≠ .calculated then .error .failedPrecondition
  else
    let c1 : CommissionCalc := { c with status := .draft, approvedBy := none }
    let currentNotes := match c1.notes with | some n => n | none => ""
    .ok { c1 with notes := some (currentNotes ++ rejectionTag rejectedBy timestamp reason) }

/-- `PayCommission` (commissions.go:889-954) on the locked row: requires
status APPROVED, creates one `CommissionPayment` whose amount is the
calculation's `total_commission`, and sets status PAID. -/
def payCommission (c : CommissionCalc) (paymentTypeId paidBy : ℤ) (paymentDate : String)
    (referenceNumber reqNotes : Option String) :
    Except GrpcCode (CommissionCalc × CommissionPaymentRec) :=
  if paymentTypeId ≤ 0 then .error .invalidArgument
  else if paidBy ≤ 0 then .error .invalidArgument
  else if c.status ≠ .approved then .error .failedPrecondition
  else
    .ok ({ c with status := .paid },
         { calculationId := c.id, employeeId := c.employeeId,
           paymentAmount := c.totalCommission, paymentDate := paymentDate,
           paymentTypeId := paymentTypeId, referenceNumber := referenceNumber,
           paidBy := paidBy, notes := reqNotes })

/-- The header amounts produced by `calculateCommissionLogic`. -/
structure CalcHeader where
  totalSales : ℚ
  baseCommission : ℚ
  bonusCommission : ℚ
  totalCommission : ℚ
deriving DecidableEq, Repr

/-- The header update of `RecalculateCommission` (commissions.go:438-511):
after recomputation it overwrites the stored amounts, sets status
CALCULATED, records the recalculating user, replaces notes with the
request's notes and resets `approved_by` to null. The existing row's
status is never consulted: no status precondition guards this update. -/
def recalculateCommissionHeader (c : CommissionCalc) (r : CalcHeader)
    (recalculatedBy : ℤ) (reqNotes : Option String) : Except GrpcCode CommissionCalc :=
  if recalculatedBy ≤ 0 then .error .invalidArgument
  else
    .ok { c with
          totalSales := decimal2 r.totalSales,
          baseCommission := decimal2 r.baseCommission,
          bonusCommission := decimal2 r.bonusCommission,
          totalCommission := decimal2 r.totalCommission,
          status := .calculated,
          calculatedBy := recalculatedBy,
          notes := reqNotes,
          approvedBy := none }

/-- Commit/rollback of a single-row commission transaction: an error leaves
the stored row unchanged. -/
def commissionTx (c : CommissionCalc) (r : Except GrpcCode CommissionCalc) :
    CommissionCalc × Option GrpcCode :=
  match r with
  | .ok c' => (c', none)
  | .error e => (c, some e)

/-- A `CommissionTier` as loaded for a tiered employee
(`min_sales_amount`, optional `max_sales_amount`, `commission_rate`);
the Go code represents a missing max as the empty string. -/
structure CommissionTier where
  minSales : ℚ
  maxSales : Option ℚ
  rate : ℚ
deriving DecidableEq, Repr

/-- The sales portion falling into one tier (commissions.go:209-223):
zero unless `total_sales > min`; otherwise `total_sales − min`, clipped at
`max − min` when a max is present and exceeded. -/
def tierPortion (S : ℚ) (t : CommissionTier) : ℚ :=
  if t.minSales < S then
    match t.maxSales with
    | some mx => if S ≤ mx then S - t.minSales else mx - t.minSales
    | none => S - t.minSales
  else 0

/-- The tiered-commission loop (commissions.go:203-237): for each tier in
stored order, when the portion is strictly positive add
`portion × rate / 100`. -/
def tieredCommission (tiers : List CommissionTier) (S : ℚ) : ℚ :=
  tiers.foldl (fun acc t =>
    let p := tierPortion S t
    if 0 < p then acc + p * t.rate / 100 else acc) 0

/-- The effective-rate computation (commissions.go:268-271):
`total / S × 100` when `S > 0`, otherwise 0. -/
def effectiveRate (total S : ℚ) : ℚ := if 0 < S then total / S * 100 else 0

/-- The specification's tier contribution, written from the claim's words:
for a tier with `S > min` the contribution is
`(clamp(S, min, max) − min) × rate / 100`, a tier with no max contributing
`(S − min) × rate / 100`, and other tiers contributing nothing. -/
def specTierContribution (S : ℚ) (t : CommissionTier) : ℚ :=
  if t.minSales < S then
    ((match t.maxSales with
      | some mx => min S mx
      | none => S) - t.minSales) * t.rate / 100
  else 0

/-- One tier's contribution as the code computes it:
`portion × rate / 100` when the portion is strictly positive, else 0. -/
def codeTierContribution (S : ℚ) (t : CommissionTier) : ℚ :=
  let p := tierPortion S t
  if 0 < p then p * t.rate / 100 else 0

/-- The specification's tiered total: the sum of the tier contributions. -/
def specTieredTotal (tiers : List CommissionTier) (S : ℚ) : ℚ :=
  (tiers.map (specTierContribution S)).sum

/-- One joined sales row feeding a calculation (commissions.go:136-142). -/
structure SalesItemData where
  orderItemId : ℤ
  productId : ℤ
  lineTotal : ℚ
deriving DecidableEq, Repr

/-- Total sales: the sum of the fetched items' `line_total`
(commissions.go:186-190). -/
def totalSalesOf (items : List SalesItemData) : ℚ :=
  (items.map (fun it => it.lineTotal)).sum

/-- `shopspring/decimal.Div`: modelled as `none` when the divisor is zero,
because the Go library panics on division by zero. -/
def decimalDiv (a b : ℚ) : Option ℚ := if b = 0 then none else some (a / b)

/-- A produced `CommissionDetail` row restricted to the allocated fields. -/
structure AllocatedDetail where
  orderItemId : ℤ
  productId : ℤ
  salesAmount : ℚ
  commissionAmount : ℚ
deriving DecidableEq, Repr

/-- The per-item allocation (commissions.go:249-265), in source order: the
division `sales_amount × total / S` is computed first, then the `S = 0`
guard replaces the result with zero; `none` models the division-by-zero
panic that occurs before the guard can apply. -/
def allocateDetail (S total : ℚ) (it : SalesItemData) : Option AllocatedDetail :=
  match decimalDiv (it.lineTotal * total) S with
  | none => none
  | some c =>
      let amount := if S = 0 then 0 else c
      some { orderItemId := it.orderItemId, productId := it.productId,
             salesAmount := it.lineTotal, commissionAmount := decimal2 amount }

/-- The allocation loop over all fetched sales items: one
`CommissionDetail` per item, or the panic if any allocation divides by
zero. -/
def allocateDetails (total S : ℚ) : List SalesItemData → Option (List AllocatedDetail)
  | [] => some []
  | it :: rest =>
      match allocateDetail S total it with
      | none => none
      | some d =>
          match allocateDetails total S rest with
          | none => none
          | some ds => some (d :: ds)

/- ## Concrete fixtures used by witnesses and counterexamples -/

/-- The order of spec scenario 2/3: subtotal 20.00, discount 2.00,
tax 1.80, total 19.80, PENDING. -/
def exOrder : OrderDocument :=
  { id := 1, documentNumber := "INV-100", cashierId := 9,
    documentType := .sale, paymentTypeId := none,
    subtotal := 20, taxAmount := 9/5, discountAmount := 2, totalAmount := 99/5,
    paidAmount := 0, changeAmount := 0, paidStatus := .pending,
    additionalInfo := none, notes := none, createdAt := 0, updatedAt := 0,
    orderItems := [{ id := 11, documentId := 1, productId := 5,
                     servingEmployeeId := none, quantity := 2, unitPrice := 10,
                     priceBeforeDiscount := 20, discountId := some 1,
                     discountAmount := 2, lineTotal := 18,
                     commissionAmount := 0 }] }

/-- A commission calculation sitting in CALCULATED. -/
def exCalcCalculated : CommissionCalc :=
  { id := 10, employeeId := 4, totalSales := 1500, baseCommission := 100,
    bonusCommission := 0, totalCommission := 100, status := .calculated,
    calculatedBy := 2, approvedBy := none, notes := none }

/-- A commission calculation sitting in PAID. -/
def exCalcPaid : CommissionCalc :=
  { exCalcCalculated with status := .paid, approvedBy := some 3 }

/-- A recomputed header for the recalculation fixture. -/
def exHeader : CalcHeader :=
  { totalSales := 1500, baseCommission := 100, bonusCommission := 0,
    totalCommission := 100 }

/-- The tier table of spec scenario 4: 5% up to 1000, 10% above. -/
def exTiers : List CommissionTier :=
  [{ minSales := 0, maxSales := some 1000, rate := 5 },
   { minSales := 1000, maxSales := none, rate := 10 }]

/- ## Helper lemmas -/

theorem isCents.add {a b : ℚ} (ha : isCents a) (hb : isCents b) : isCents (a + b) := by
  obtain ⟨m, rfl⟩ := ha
  obtain ⟨n, rfl⟩ := hb
  exact ⟨m + n, by push_cast; ring⟩

theorem isCents.sub {a b : ℚ} (ha : isCents a) (hb : isCents b) : isCents (a - b) := by
  obtain ⟨m, rfl⟩ := ha
  obtain ⟨n, rfl⟩ := hb
  exact ⟨m - n, by push_cast; ring⟩

theorem isCents.listSum {l : List ℚ} (h : ∀ x ∈ l, isCents x) : isCents l.sum := by
  induction l with
  | nil => exact ⟨0, by norm_num⟩
  | cons a t ih =>
      simp only [List.sum_cons]
      exact (h a (by simp)).add (ih fun x hx => h x (by simp [hx]))

theorem round2_cents {a : ℚ} (h : isCents a) : round2 a = a := by
  obtain ⟨n, rfl⟩ := h
  unfold round2
  rw [div_mul_cancel₀ _ (by norm_num : (100 : ℚ) ≠ 0), round_intCast]

theorem round2_add_cents {c : ℚ} (h : isCents c) (x : ℚ) :
    round2 (c + x) = c + round2 x := by
  obtain ⟨n, rfl⟩ := h
  unfold round2
  have h1 : ((n : ℚ) / 100 + x) * 100 = x * 100 + n := by
    field_simp
    ring
  rw [h1, round_add_int, Int.cast_add, add_div]
  ring

/- ## C9: reserve then release restores the pre-image -/

/-- C9: for a stock row with nonnegative reserved quantity and
`0 < q ≤ available_qty`, `ReserveStock(q)` succeeds, moving `q` from
available to reserved and appending an ADJUSTMENT movement of quantity
`q`, and `ReleaseStock(q)` on the result succeeds and restores the
original row exactly. -/
theorem reserve_release_restores (s : Stock) (q : ℤ)
    (hq : 0 < q) (hav : q ≤ s.availableQuantity) (hres : 0 ≤ s.reservedQuantity) :
    reserveStock s q =
      .ok ({ availableQuantity := s.availableQuantity - q,
             reservedQuantity := s.reservedQuantity + q },
           { movementType := .movAdjustment, quantity := q }) ∧
    releaseStock { availableQuantity := s.availableQuantity - q,
                   reservedQuantity := s.reservedQuantity + q } q =
      .ok (s, { movementType := .movAdjustment, quantity := q }) := by
  obtain ⟨a, r⟩ := s
  dsimp only at hav hres
  constructor
  · unfold reserveStock
    dsimp only
    rw [if_neg (by omega), if_neg (by omega)]
  · unfold releaseStock
    dsimp only
    rw [if_neg (by omega), if_neg (by omega)]
    have h1 : a - q + q = a := by omega
    have h2 : r + q - q = r := by omega
    rw [h1, h2]

/-- Witness for C9 at spec scenario 1: (available 5, reserved 0),
reserve 3 then release 3. -/
theorem reserve_release_restores_witness :
    reserveStock ⟨5, 0⟩ 3 =
      .ok (⟨2, 3⟩, { movementType := .movAdjustment, quantity := 3 }) ∧
    releaseStock ⟨2, 3⟩ 3 =
      .ok (⟨5, 0⟩, { movementType := .movAdjustment, quantity := 3 }) := by
  have h := reserve_release_restores ⟨5, 0⟩ 3 (by norm_num) (by norm_num) (by norm_num)
  norm_num at h
  exact h

/- ## C7: ProcessPayment behaviour -/

/-- C7: `ProcessPayment` rejects an order already in PAID (leaving it
unchanged); for `payment_type_id = 1` it fails when
`paid_amount < total_amount` and otherwise succeeds with
`change_amount = paid_amount − total_amount` and the order saved with
`paid_status = PAID` and the given payment type. The cents hypotheses say
the monetary inputs carry two-decimal amounts, so the formatted change
equals the exact difference. -/
theorem processPayment_spec (o : OrderDocument) (pt : ℤ) (paid : ℚ)
    (hcp : isCents paid) (hct : isCents o.totalAmount) :
    (o.paidStatus = .paid →
      processPayment o pt paid =
        { order := o, success := false, changeAmount := 0, events := [] }) ∧
    (o.paidStatus ≠ .paid → pt = 1 → paid < o.totalAmount →
      processPayment o pt paid =
        { order := o, success := false, changeAmount := 0, events := [] }) ∧
    (o.paidStatus ≠ .paid → pt = 1 → o.totalAmount ≤ paid →
      processPayment o pt paid =
        { order := { o with paidStatus := .paid, paymentTypeId := some pt },
          success := true, changeAmount := paid - o.totalAmount, events := [] }) := by
  refine ⟨?_, ?_, ?_⟩
  · intro hp
    unfold processPayment
    rw [if_pos hp]
  · intro hp h1 hlt
    unfold processPayment
    rw [if_neg hp, if_pos h1, if_pos hlt]
  · intro hp h1 hge
    unfold processPayment
    rw [if_neg hp, if_pos h1, if_neg (not_lt.mpr hge)]
    rw [round2_cents (hcp.sub hct)]

/-- Witness for C7 at spec scenario 3: paying 25.00 against total 19.80
with payment type 1 yields change 5.20 and a PAID order. -/
theorem processPayment_spec_witness :
    processPayment exOrder 1 25 =
      { order := { exOrder with paidStatus := .paid, paymentTypeId := some 1 },
        success := true, changeAmount := 26/5, events := [] } := by
  have h := (processPayment_spec exOrder 1 25 ⟨2500, by norm_num⟩
      ⟨1980, by norm_num [exOrder]⟩).2.2 (by decide) rfl (by norm_num [exOrder])
  rw [h]
  norm_num [exOrder]

/- ## C2: ProcessPayment publishes no payment.processed event -/

/-- C2 (code bug): `ProcessPayment` publishes no event on any path — the
handler body contains no `publishOrderEvent` call (the `payment.processed`
event constant is declared at pos.go:26 but never used) — while the claimed
behaviour would be the two publishes that
`publishOrderEvent "payment.processed"` produces. -/
theorem processPayment_publishes_no_event (o : OrderDocument) (pt : ℤ) (paid : ℚ) :
    (processPayment o pt paid).events = [] ∧
    publishOrderEvent "payment.processed" =
      [{ channel := "pos:events:payment.processed", eventType := "payment.processed" },
       { channel := "pos:events:all", eventType := "payment.processed" }] := by
  constructor
  · unfold processPayment
    split
    · rfl
    · split
      · split
        · rfl
        · rfl
      · rfl
  · rfl

/- ## C1: movement journal versus live balance -/

/-- C1 counterexample: from (available 5, reserved 0) a single successful
`ReserveStock(3)` leaves the balance `available + reserved` unchanged but
appends an ADJUSTMENT movement with stored quantity 3, so the sum of the
stored movement quantities (3) differs from the balance change (0). -/
theorem c1_reserve_breaks_movement_sum :
    runStockOps ⟨5, 0⟩ [.reserve 3] =
      .ok (⟨2, 3⟩, [{ movementType := .movAdjustment, quantity := 3 }]) ∧
    movementQuantitySum [{ movementType := .movAdjustment, quantity := 3 }] ≠
      Stock.balance ⟨2, 3⟩ - Stock.balance ⟨5, 0⟩ := by
  refine ⟨rfl, by decide⟩

/-- The balance change contributed by one successful `UpdateStock` call
equals the movement's quantity signed by its movement type. -/
theorem updateStock_ok_balance {s s1 : Stock} {mt : MovementType} {q : ℤ}
    {m : StockMovement} (h : updateStock s mt q = .ok (s1, m)) :
    typeSignedQuantity m = s1.balance - s.balance := by
  unfold updateStock at h
  by_cases hq : q ≤ 0
  · rw [if_pos hq] at h
    exact absurd h (by simp)
  · rw [if_neg hq] at h
    cases mt with
    | movIn =>
        simp only [Except.ok.injEq, Prod.mk.injEq] at h
        obtain ⟨rfl, rfl⟩ := h
        simp only [typeSignedQuantity, Stock.balance]
        ring
    | movOut =>
        by_cases hav : s.availableQuantity < q
        · rw [if_pos hav] at h
          exact absurd h (by simp)
        · rw [if_neg hav] at h
          simp only [Except.ok.injEq, Prod.mk.injEq] at h
          obtain ⟨rfl, rfl⟩ := h
          simp only [typeSignedQuantity, Stock.balance]
          ring
    | movAdjustment =>
        by_cases hneg : s.availableQuantity + q < 0
        · rw [if_pos hneg] at h
          exact absurd h (by simp)
        · rw [if_neg hneg] at h
          simp only [Except.ok.injEq, Prod.mk.injEq] at h
          obtain ⟨rfl, rfl⟩ := h
          simp only [typeSignedQuantity, Stock.balance]
          ring
    | movTransfer => exact absurd h (by simp)

/-- C1 amended: movements are stored with positive quantities, so the sum
must sign them by movement type (OUT negated), and the ADJUSTMENT
movements appended by `ReserveStock`/`ReleaseStock` — which leave
`available + reserved` unchanged — must be excluded: over any sequence of
successful `UpdateStock` calls, the type-signed movement sum equals the
change of `available_qty + reserved_qty`. -/
theorem updateStock_movement_sum_balance (s : Stock) (ops : List StockOp)
    (s' : Stock) (ms : List StockMovement)
    (hops : ∀ op ∈ ops, op.isUpdate = true)
    (h : runStockOps s ops = .ok (s', ms)) :
    (ms.map typeSignedQuantity).sum = s'.balance - s.balance := by
  induction ops generalizing s ms with
  | nil =>
      simp only [runStockOps, Except.ok.injEq, Prod.mk.injEq] at h
      obtain ⟨rfl, rfl⟩ := h
      simp
  | cons op rest ih =>
      obtain ⟨mt, q, rfl⟩ : ∃ mt q, op = .update mt q := by
        cases op with
        | update mt q => exact ⟨mt, q, rfl⟩
        | reserve q =>
            have hu := hops (.reserve q) (by simp)
            simp [StockOp.isUpdate] at hu
        | release q =>
            have hu := hops (.release q) (by simp)
            simp [StockOp.isUpdate] at hu
      simp only [runStockOps] at h
      cases hstep : applyStockOp s (.update mt q) with
      | error e =>
          rw [hstep] at h
          exact absurd h (by simp)
      | ok p =>
          obtain ⟨s1, m⟩ := p
          rw [hstep] at h
          dsimp only at h
          cases hrest : runStockOps s1 rest with
          | error e =>
              rw [hrest] at h
              exact absurd h (by simp)
          | ok pr =>
              obtain ⟨s'', ms'⟩ := pr
              rw [hrest] at h
              simp only [Except.ok.injEq, Prod.mk.injEq] at h
              obtain ⟨rfl, rfl⟩ := h
              have hb := updateStock_ok_balance hstep
              have ihr := ih s1 ms' (fun x hx => hops x (List.mem_cons_of_mem _ hx)) hrest
              simp only [List.map_cons, List.sum_cons, ihr, hb]
              ring

/-- Witness for the amended C1 over the successful update sequence
IN 4, OUT 3, ADJUSTMENT 2 from (available 5, reserved 2). -/
theorem updateStock_movement_sum_balance_witness :
    (([{ movementType := .movIn, quantity := 4 },
       { movementType := .movOut, quantity := 3 },
       { movementType := .movAdjustment, quantity := 2 }] :
        List StockMovement).map typeSignedQuantity).sum =
      Stock.balance ⟨8, 2⟩ - Stock.balance ⟨5, 2⟩ := by
  exact updateStock_movement_sum_balance ⟨5, 2⟩
    [.update .movIn 4, .update .movOut 3, .update .movAdjustment 2] ⟨8, 2⟩
    [{ movementType := .movIn, quantity := 4 },
     { movementType := .movOut, quantity := 3 },
     { movementType := .movAdjustment, quantity := 2 }]
    (by decide) rfl

/- ## C3: discount cap -/

/-- C3 counterexample: in `CreateOrder`'s per-item discount branch a
FIXED_AMOUNT discount of value 20 on one unit priced 10 (min_quantity 1,
so unit price ≥ 0, quantity ≥ min_quantity, value ≥ 0 all hold) computes
`discount_amount = 20`, which exceeds the undiscounted line amount
`10 × 1 = 10`: no cap is applied outside `ValidateDiscount`. -/
theorem createOrder_discount_exceeds_line :
    createOrderDiscountAmount .fixedAmount 20 1 10 1 = 20 ∧
    (10 : ℚ) * ((1 : ℤ) : ℚ) < createOrderDiscountAmount .fixedAmount 20 1 10 1 := by
  constructor <;> norm_num [createOrderDiscountAmount]

/-- C3 amended: only `ValidateDiscount` caps the discount — its computed
amount never exceeds the undiscounted line amount `unit_price × quantity`,
for every discount type and all inputs; the uncapped `CreateOrder` branch
and `calculateDiscountAmount` can exceed it. -/
theorem validateDiscountAmount_le_line (dtype : DiscountType) (v : ℚ)
    (minq : ℤ) (up : ℚ) (q : ℤ) :
    validateDiscountAmount dtype v minq up q ≤ up * (q : ℚ) := by
  have hcap : ∀ raw total : ℚ, (if total < raw then total else raw) ≤ total := by
    intro raw total
    split
    · exact le_refl _
    · next h => exact not_lt.mp h
  unfold validateDiscountAmount
  dsimp only
  exact hcap _ _

/- ## C6: per-detail allocation divides before the zero guard -/

/-- C6 (code bug): with a single contributing item of `line_total = 0.00`
the total sales `S` is zero while the item list is nonempty; the
allocation computes `sales_amount × total / S` before consulting the
`S = 0` guard, and `shopspring/decimal.Div` panics on a zero divisor, so
the allocation crashes (`none`) instead of producing a zero-amount detail
row. -/
theorem allocateDetails_zero_sales_panics :
    totalSalesOf [{ orderItemId := 1, productId := 1, lineTotal := 0 }] = 0 ∧
    allocateDetails 0
      (totalSalesOf [{ orderItemId := 1, productId := 1, lineTotal := 0 }])
      [{ orderItemId := 1, productId := 1, lineTotal := 0 }] = none := by
  constructor
  · simp [totalSalesOf]
  · simp [allocateDetails, allocateDetail, decimalDiv, totalSalesOf]

/- ## C4: commission approval state machine -/

/-- C4 counterexample: `RecalculateCommission` checks no status
precondition, so invoked on a calculation in PAID it succeeds and moves it
to CALCULATED (with `approved_by` cleared) instead of failing with
`precondition_failed` — a transition the claim's list does not admit. -/
theorem recalculate_from_paid_succeeds :
    exCalcPaid.status = .paid ∧
    recalculateCommissionHeader exCalcPaid exHeader 7 none =
      .ok { id := 10, employeeId := 4, totalSales := 1500, baseCommission := 100,
            bonusCommission := 0, totalCommission := 100, status := .calculated,
            calculatedBy := 7, approvedBy := none, notes := none } := by
  constructor
  · rfl
  · unfold recalculateCommissionHeader
    rw [if_neg (by norm_num)]
    norm_num [exCalcPaid, exCalcCalculated, exHeader, decimal2, stringFixed2, roundAway]

/-- C4 amended: `ApproveCommission` (CALCULATED → APPROVED),
`RejectCommission` (CALCULATED → DRAFT, clearing `approved_by` and
appending the timestamped rejection tag to notes) and `PayCommission`
(APPROVED → PAID) each fail with `precondition_failed` and leave the
calculation unchanged in every other status; `CalculateCommission` creates
calculations directly in CALCULATED; but `RecalculateCommission` imposes no
status guard — from any status it overwrites the header, sets CALCULATED
and resets `approved_by` to null. -/
theorem commission_fsm_guards (c : CommissionCalc) (uid : ℤ) (huid : 0 < uid)
    (reason ts anotes : String) (hreason : reason ≠ "")
    (ptid : ℤ) (hptid : 0 < ptid) (pdate : String) (refn rnotes : Option String)
    (hd : CalcHeader) :
    (c.status = .calculated →
      approveCommission c uid anotes =
        .ok { c with
              status := .approved
              approvedBy := some uid
              notes := if anotes ≠ "" then some anotes else c.notes }) ∧
    (c.status ≠ .calculated →
      commissionTx c (approveCommission c uid anotes) = (c, some .failedPrecondition)) ∧
    (c.status = .calculated →
      rejectCommission c uid reason ts =
        .ok { c with
              status := .draft
              approvedBy := none
              notes := some ((match c.notes with | some n => n | none => "") ++
                rejectionTag uid ts reason) }) ∧
    (c.status ≠ .calculated →
      commissionTx c (rejectCommission c uid reason ts) = (c, some .failedPrecondition)) ∧
    (c.status = .approved →
      payCommission c ptid uid pdate refn rnotes =
        .ok ({ c with status := .paid },
             { calculationId := c.id, employeeId := c.employeeId,
               paymentAmount := c.totalCommission, paymentDate := pdate,
               paymentTypeId := ptid, referenceNumber := refn, paidBy := uid,
               notes := rnotes })) ∧
    (c.status ≠ .approved →
      payCommission c ptid uid pdate refn rnotes = .error .failedPrecondition) ∧
    (recalculateCommissionHeader c hd uid rnotes =
      .ok { c with
            totalSales := decimal2 hd.totalSales
            baseCommission := decimal2 hd.baseCommission
            bonusCommission := decimal2 hd.bonusCommission
            totalCommission := decimal2 hd.totalCommission
            status := .calculated
            calculatedBy := uid
            notes := rnotes
            approvedBy := none }) := by
  have huid' : ¬ uid ≤ 0 := by omega
  have hptid' : ¬ ptid ≤ 0 := by omega
  refine ⟨?_, ?_, ?_, ?_, ?_, ?_, ?_⟩
  · intro hs
    unfold approveCommission
    rw [if_neg huid', if_neg (by simp [hs])]
  · intro hs
    unfold commissionTx approveCommission
    rw [if_neg huid', if_pos hs]
  · intro hs
    unfold rejectCommission
    rw [if_neg huid', if_neg (by simp [hreason]), if_neg (by simp [hs])]
  · intro hs
    unfold commissionTx rejectCommission
    rw [if_neg huid', if_neg (by simp [hreason]), if_pos hs]
  · intro hs
    unfold payCommission
    rw [if_neg hptid', if_neg huid', if_neg (by simp [hs])]
  · intro hs
    unfold payCommission
    rw [if_neg hptid', if_neg huid', if_pos hs]
  · unfold recalculateCommissionHeader
    rw [if_neg huid']

/-- Witness for the amended C4: a CALCULATED calculation is approved by
user 3, and the same calculation in PAID is rejected by `PayCommission`
with `precondition_failed`. -/
theorem commission_fsm_guards_witness :
    approveCommission exCalcCalculated 3 "" =
      .ok { exCalcCalculated with status := .approved, approvedBy := some 3 } ∧
    payCommission exCalcPaid 1 3 "2025-01-01" none none =
      .error .failedPrecondition := by
  constructor
  · have h := (commission_fsm_guards exCalcCalculated 3 (by norm_num) "r" "t" ""
      (by decide) 1 (by norm_num) "2025-01-01" none none exHeader).1 rfl
    simpa using h
  · exact (commission_fsm_guards exCalcPaid 3 (by norm_num) "r" "t" ""
      (by decide) 1 (by norm_num) "2025-01-01" none none exHeader).2.2.2.2.2.1
      (by decide)

/- ## C5: tiered commission -/

/-- The tier loop accumulates exactly the sum of the per-tier
contributions. -/
theorem tieredCommission_foldl (S : ℚ) (tiers : List CommissionTier) (a : ℚ) :
    List.foldl (fun acc t =>
      let p := tierPortion S t
      if 0 < p then acc + p * t.rate / 100 else acc) a tiers
      = a + (tiers.map (codeTierContribution S)).sum := by
  induction tiers generalizing a with
  | nil => simp
  | cons t ts ih =>
      rw [List.foldl_cons, ih, List.map_cons, List.sum_cons]
      by_cases h : 0 < tierPortion S t
      · simp only [codeTierContribution, if_pos h]
        ring
      · simp only [codeTierContribution, if_neg h]
        ring

/-- For a well-formed tier (min ≤ max when a max is present) the code's
contribution coincides with the specification's clamp formula. -/
theorem codeTierContribution_eq_spec (S : ℚ) (t : CommissionTier)
    (h : ∀ mx, t.maxSales = some mx → t.minSales ≤ mx) :
    codeTierContribution S t = specTierContribution S t := by
  unfold codeTierContribution specTierContribution tierPortion
  by_cases h1 : t.minSales < S
  · cases hmx : t.maxSales with
    | none =>
        simp only [hmx, if_pos h1]
        rw [if_pos (by linarith : (0:ℚ) < S - t.minSales)]
    | some mx =>
        have hm := h mx hmx
        simp only [hmx, if_pos h1]
        by_cases h2 : S ≤ mx
        · rw [if_pos h2, if_pos (by linarith : (0:ℚ) < S - t.minSales),
            min_eq_left h2]
        · rw [if_neg h2, min_eq_right (le_of_lt (not_le.mp h2))]
          by_cases h3 : (0:ℚ) < mx - t.minSales
          · rw [if_pos h3]
          · rw [if_neg h3]
            have h4 : mx - t.minSales = 0 :=
              le_antisymm (not_lt.mp h3) (by linarith)
            rw [h4]
            ring
  · simp only [if_neg h1]
    norm_num

/-- C5: for well-formed tiers the computed total commission equals the
specification's sum of `(clamp(S, min, max) − min) × rate / 100` over
tiers with `S > min` (no-max tiers contributing `(S − min) × rate / 100`);
in particular on tiers [(0, 1000, 5%), (1000, ∞, 10%)] with `S = 1500`
the total is 100 (printed "100.00") and the effective rate prints "6.67". -/
theorem tieredCommission_spec (tiers : List CommissionTier) (S : ℚ)
    (hw : ∀ t ∈ tiers, ∀ mx, t.maxSales = some mx → t.minSales ≤ mx) :
    tieredCommission tiers S = specTieredTotal tiers S ∧
    tieredCommission exTiers 1500 = 100 ∧
    stringFixed2 (tieredCommission exTiers 1500) = 10000 ∧
    stringFixed2 (effectiveRate (tieredCommission exTiers 1500) 1500) = 667 := by
  have hex : tieredCommission exTiers 1500 = 100 := by
    norm_num [tieredCommission, exTiers, tierPortion]
  refine ⟨?_, hex, ?_, ?_⟩
  · unfold tieredCommission specTieredTotal
    rw [tieredCommission_foldl, zero_add]
    exact congrArg List.sum
      (List.map_congr_left (fun t ht => codeTierContribution_eq_spec S t (hw t ht)))
  · rw [hex]
    norm_num [stringFixed2, roundAway]
  · rw [hex]
    norm_num [stringFixed2, roundAway, effectiveRate]

/-- Witness for C5 at the example tier table. -/
theorem tieredCommission_spec_witness :
    tieredCommission exTiers 1500 = specTieredTotal exTiers 1500 := by
  have hw : ∀ t ∈ exTiers, ∀ mx, t.maxSales = some mx → t.minSales ≤ mx := by
    intro t ht mx hmx
    rcases (by simpa [exTiers] using ht :
        t = ({ minSales := 0, maxSales := some 1000, rate := 5 } : CommissionTier) ∨
        t = ({ minSales := 1000, maxSales := none, rate := 10 } : CommissionTier))
      with rfl | rfl
    · simp only at hmx
      obtain rfl : (1000 : ℚ) = mx := by simpa using hmx
      norm_num
    · simp at hmx
  exact (tieredCommission_spec exTiers 1500 hw).1

/- ## C8: cart and order totals invariants -/

/-- Sums of differences split into differences of sums. -/
theorem list_sum_map_sub {α : Type} (l : List α) (f g : α → ℚ) :
    (l.map (fun x => f x - g x)).sum = (l.map f).sum - (l.map g).sum := by
  induction l with
  | nil => simp
  | cons a t ih =>
      simp only [List.map_cons, List.sum_cons, ih]
      ring

/-- C8 amended: the stored header fields of `recalculateCartTotals` — run
after every cart mutation, over item amounts re-read from two-decimal
stored strings — satisfy `total_amount = subtotal − discount_amount +
tax_amount`, `tax_amount = (subtotal − discount_amount) × 0.10` at
two-decimal formatting, and `Σ line_total = subtotal − discount_amount`;
for `CreateOrder` the same identities hold only for orders whose per-line
computed discount amounts are themselves two-decimal values, because the
header accumulates the raw discounts while each item stores its rounded
line total (a sub-cent percentage discount breaks the item-sum identity,
see the counterexample). -/
theorem order_totals_invariant (items : List CartLine) (lines : List OrderLineAmounts)
    (hit : ∀ i ∈ items, isCents i.lineTotal ∧ isCents i.discountAmount)
    (hl : ∀ l ∈ lines, isCents l.lineSubtotal ∧ isCents l.discountAmount) :
    ((recalculateCartTotals items).totalAmount =
      (recalculateCartTotals items).subtotal -
        (recalculateCartTotals items).discountAmount +
        (recalculateCartTotals items).taxAmount) ∧
    ((recalculateCartTotals items).taxAmount =
      round2 (((recalculateCartTotals items).subtotal -
        (recalculateCartTotals items).discountAmount) * (1/10))) ∧
    ((items.map (fun i => i.lineTotal)).sum =
      (recalculateCartTotals items).subtotal -
        (recalculateCartTotals items).discountAmount) ∧
    ((createOrderTotals lines).totalAmount =
      (createOrderTotals lines).subtotal -
        (createOrderTotals lines).discountAmount +
        (createOrderTotals lines).taxAmount) ∧
    ((createOrderTotals lines).taxAmount =
      round2 (((createOrderTotals lines).subtotal -
        (createOrderTotals lines).discountAmount) * (1/10))) ∧
    ((lines.map createOrderStoredLineTotal).sum =
      (createOrderTotals lines).subtotal -
        (createOrderTotals lines).discountAmount) := by
  have hsubC : isCents ((items.map (fun i => i.lineTotal + i.discountAmount)).sum) := by
    refine isCents.listSum ?_
    intro x hx
    obtain ⟨i, hi, rfl⟩ := List.mem_map.mp hx
    exact ((hit i hi).1).add ((hit i hi).2)
  have hdC : isCents ((items.map (fun i => i.discountAmount)).sum) := by
    refine isCents.listSum ?_
    intro x hx
    obtain ⟨i, hi, rfl⟩ := List.mem_map.mp hx
    exact (hit i hi).2
  have hlsC : isCents ((lines.map (fun l => l.lineSubtotal)).sum) := by
    refine isCents.listSum ?_
    intro x hx
    obtain ⟨l, hlm, rfl⟩ := List.mem_map.mp hx
    exact (hl l hlm).1
  have hldC : isCents ((lines.map (fun l => l.discountAmount)).sum) := by
    refine isCents.listSum ?_
    intro x hx
    obtain ⟨l, hlm, rfl⟩ := List.mem_map.mp hx
    exact (hl l hlm).2
  unfold recalculateCartTotals createOrderTotals
  dsimp only
  rw [round2_cents hsubC, round2_cents hdC, round2_add_cents (hsubC.sub hdC),
    round2_cents hlsC, round2_cents hldC, round2_add_cents (hlsC.sub hldC)]
  refine ⟨rfl, rfl, ?_, rfl, rfl, ?_⟩
  · rw [List.sum_map_add]
    ring
  · have hmap : lines.map createOrderStoredLineTotal =
        lines.map (fun l => l.lineSubtotal - l.discountAmount) := by
      refine List.map_congr_left ?_
      intro l hlm
      unfold createOrderStoredLineTotal
      exact round2_cents (((hl l hlm).1).sub ((hl l hlm).2))
    rw [hmap, list_sum_map_sub]

/-- C8 counterexample: a PERCENTAGE discount of 0.4% on a 1.00 × 1 line
computes the sub-cent discount 0.004; on an order of two such lines the
stored item line totals sum to 2.00 while the stored header gives
`subtotal − discount_amount = 2.00 − 0.01 = 1.99`, so
`Σ line_total = subtotal − discount_amount` fails on a reachable created
order. -/
theorem createOrder_subcent_discount_breaks_totals :
    createOrderDiscountAmount .percentage (2/5) 1 1 1 = 1/250 ∧
    (([{ lineSubtotal := 1, discountAmount := 1/250 },
        { lineSubtotal := 1, discountAmount := 1/250 }] :
        List OrderLineAmounts).map createOrderStoredLineTotal).sum = 2 ∧
    (createOrderTotals [{ lineSubtotal := 1, discountAmount := 1/250 },
        { lineSubtotal := 1, discountAmount := 1/250 }]).subtotal -
      (createOrderTotals [{ lineSubtotal := 1, discountAmount := 1/250 },
        { lineSubtotal := 1, discountAmount := 1/250 }]).discountAmount = 199/100 ∧
    (([{ lineSubtotal := 1, discountAmount := 1/250 },
        { lineSubtotal := 1, discountAmount := 1/250 }] :
        List OrderLineAmounts).map createOrderStoredLineTotal).sum ≠
      (createOrderTotals [{ lineSubtotal := 1, discountAmount := 1/250 },
        { lineSubtotal := 1, discountAmount := 1/250 }]).subtotal -
        (createOrderTotals [{ lineSubtotal := 1, discountAmount := 1/250 },
          { lineSubtotal := 1, discountAmount := 1/250 }]).discountAmount := by
  have h1 : createOrderDiscountAmount .percentage (2/5) 1 1 1 = 1/250 := by
    norm_num [createOrderDiscountAmount]
  have h2 : (([{ lineSubtotal := 1, discountAmount := 1/250 },
      { lineSubtotal := 1, discountAmount := 1/250 }] :
      List OrderLineAmounts).map createOrderStoredLineTotal).sum = 2 := by
    norm_num [createOrderStoredLineTotal, round2, round_eq]
  have h3 : (createOrderTotals [{ lineSubtotal := 1, discountAmount := 1/250 },
      { lineSubtotal := 1, discountAmount := 1/250 }]).subtotal -
      (createOrderTotals [{ lineSubtotal := 1, discountAmount := 1/250 },
        { lineSubtotal := 1, discountAmount := 1/250 }]).discountAmount = 199/100 := by
    norm_num [createOrderTotals, round2, round_eq]
  refine ⟨h1, h2, h3, ?_⟩
  rw [h2, h3]
  norm_num

/-- Witness for the amended C8 at spec scenario 2: one cart line
(line_total 18.00, discount 2.00) and one order line (line_subtotal
20.00, discount 2.00), both halves of the theorem exercised. -/
theorem order_totals_invariant_witness :
    ((recalculateCartTotals [{ lineTotal := 18, discountAmount := 2 }]).totalAmount =
      (recalculateCartTotals [{ lineTotal := 18, discountAmount := 2 }]).subtotal -
        (recalculateCartTotals [{ lineTotal := 18, discountAmount := 2 }]).discountAmount +
        (recalculateCartTotals [{ lineTotal := 18, discountAmount := 2 }]).taxAmount) ∧
    ((([{ lineSubtotal := 20, discountAmount := 2 }] :
        List OrderLineAmounts).map createOrderStoredLineTotal).sum =
      (createOrderTotals [{ lineSubtotal := 20, discountAmount := 2 }]).subtotal -
        (createOrderTotals [{ lineSubtotal := 20, discountAmount := 2 }]).discountAmount) ∧
    ((createOrderTotals [{ lineSubtotal := 20, discountAmount := 2 }]).totalAmount =
      (createOrderTotals [{ lineSubtotal := 20, discountAmount := 2 }]).subtotal -
        (createOrderTotals [{ lineSubtotal := 20, discountAmount := 2 }]).discountAmount +
        (createOrderTotals [{ lineSubtotal := 20, discountAmount := 2 }]).taxAmount) ∧
    ((createOrderTotals [{ lineSubtotal := 20, discountAmount := 2 }]).totalAmount = 99/5) := by
  have hit : ∀ i ∈ ([{ lineTotal := 18, discountAmount := 2 }] : List CartLine),
      isCents i.lineTotal ∧ isCents i.discountAmount := by
    intro i hi
    obtain rfl : i = ({ lineTotal := 18, discountAmount := 2 } : CartLine) := by
      simpa using hi
    exact ⟨⟨1800, by norm_num⟩, ⟨200, by norm_num⟩⟩
  have hl : ∀ l ∈ ([{ lineSubtotal := 20, discountAmount := 2 }] : List OrderLineAmounts),
      isCents l.lineSubtotal ∧ isCents l.discountAmount := by
    intro l hlm
    obtain rfl : l = ({ lineSubtotal := 20, discountAmount := 2 } : OrderLineAmounts) := by
      simpa using hlm
    exact ⟨⟨2000, by norm_num⟩, ⟨200, by norm_num⟩⟩
  have h := order_totals_invariant [{ lineTotal := 18, discountAmount := 2 }]
    [{ lineSubtotal := 20, discountAmount := 2 }] hit hl
  refine ⟨h.1, h.2.2.2.2.2, h.2.2.2.1, ?_⟩
  norm_num [createOrderTotals, round2, round_eq]

/- ## C10: VoidOrder frame -/

/-- C10: on a non-VOID, non-PAID order a successful `VoidOrder` applies
exactly the three-column update (`document_type = VOID`,
`notes = reason`, `updated_at = now`) to the matched row, publishes
`order.voided`, leaves every other column of the matched row — items,
document number, cashier, all monetary fields and paid status — unchanged,
and leaves every other row of the table unchanged. -/
theorem voidOrder_frame (db : List OrderDocument) (orderId voidedBy : ℤ)
    (reason : String) (now : ℤ) (o : OrderDocument)
    (hid : orderId ≠ 0) (hvb : voidedBy ≠ 0) (hr : reason ≠ "")
    (hfind : db.find? (fun x => x.id = orderId) = some o)
    (hnv : o.documentType ≠ .voidDoc) (hnp : o.paidStatus ≠ .paid) :
    voidOrder db orderId voidedBy reason now =
      .ok (db.map (fun x => if x.id = orderId then voidOrderUpdates reason now x else x),
           publishOrderEvent "order.voided") ∧
    (∀ x : OrderDocument,
      (voidOrderUpdates reason now x).documentType = .voidDoc ∧
      (voidOrderUpdates reason now x).notes = some reason ∧
      (voidOrderUpdates reason now x).updatedAt = now ∧
      (voidOrderUpdates reason now x).id = x.id ∧
      (voidOrderUpdates reason now x).documentNumber = x.documentNumber ∧
      (voidOrderUpdates reason now x).cashierId = x.cashierId ∧
      (voidOrderUpdates reason now x).paymentTypeId = x.paymentTypeId ∧
      (voidOrderUpdates reason now x).subtotal = x.subtotal ∧
      (voidOrderUpdates reason now x).taxAmount = x.taxAmount ∧
      (voidOrderUpdates reason now x).discountAmount = x.discountAmount ∧
      (voidOrderUpdates reason now x).totalAmount = x.totalAmount ∧
      (voidOrderUpdates reason now x).paidAmount = x.paidAmount ∧
      (voidOrderUpdates reason now x).changeAmount = x.changeAmount ∧
      (voidOrderUpdates reason now x).paidStatus = x.paidStatus ∧
      (voidOrderUpdates reason now x).orderItems = x.orderItems) ∧
    (∀ x ∈ db, x.id ≠ orderId →
      x ∈ db.map (fun y => if y.id = orderId then voidOrderUpdates reason now y else y)) := by
  refine ⟨?_, ?_, ?_⟩
  · unfold voidOrder
    rw [if_neg hid, if_neg hvb, if_neg hr, hfind]
    dsimp only
    rw [if_neg hnv, if_neg hnp]
  · intro x
    exact ⟨rfl, rfl, rfl, rfl, rfl, rfl, rfl, rfl, rfl, rfl, rfl, rfl, rfl, rfl, rfl⟩
  · intro x hx hne
    refine List.mem_map.mpr ⟨x, hx, ?_⟩
    rw [if_neg hne]

/-- Witness for C10: voiding the PENDING example order in a one-row table. -/
theorem voidOrder_frame_witness :
    voidOrder [exOrder] 1 9 "damaged" 5 =
      .ok ([voidOrderUpdates "damaged" 5 exOrder], publishOrderEvent "order.voided") := by
  have h := (voidOrder_frame [exOrder] 1 9 "damaged" 5 exOrder
    (by decide) (by decide) (by decide) (by rfl) (by decide) (by decide)).1
  simpa [exOrder] using h
